import Mathlib

/-
Shallow embedding of the todo-fullstack-backend repository.

The repository is a FastAPI + SQLModel todo backend.  The embedded source
files are:
  - src/security.py            (password hashing wrapper around passlib bcrypt)
  - src/models.py              (User and Task table models)
  - src/.history/app_20260215151647.py  (the later application version, called v2 below;
    functions keep their source names without a suffix)
  - src/.history/app_20260214104525.py  (the earlier application version, called v1 below;
    functions from it carry a _v1 suffix when they differ from v2)

The token service (auth.py: create_access_token, verify_token) is imported by
both application versions but the file itself is not part of the repository
snapshot; it is modelled from the specification (spec section 4.2), as marked
on the corresponding definitions.

Modelling conventions:
  - timestamps are natural numbers; every call of datetime.now in the source
    becomes an explicit time parameter of the embedded function (one parameter
    per clock read, in source order);
  - the database session becomes an explicit DB value (lists of rows in
    insertion order, plus the autoincrement counter for task ids);
  - raise HTTPException becomes an Except.error carrying status, detail and
    headers; SQL SELECT ... .first() becomes List.find? over the row list;
  - the passlib CryptContext is an external dependency and is a parameter
    (a record of its hash and verify functions).
-/

namespace Todo

/-- Result of raise HTTPException: status code, detail message and extra headers. -/
structure HTTPError where
  status : Nat
  detail : String
  headers : List (String × String)
  deriving DecidableEq

/-- Task status enum from both application versions (class Status). -/
inductive Status where
  | pending
  | in_progress
  | completed
  deriving DecidableEq

/-- User row from src/models.py: id (uuid string), unique email, bcrypt hash,
optional display name, creation timestamp. -/
structure User where
  id : String
  email : String
  hashed_password : String
  name : Option String := none
  created_at : Nat
  deriving DecidableEq

/-- Task row from src/models.py: autoincrement integer id, owning user id,
title, optional description, completed flag and the two timestamps. -/
structure Task where
  id : Nat
  user_id : String
  title : String
  description : Option String
  completed : Bool
  created_at : Nat
  updated_at : Nat
  deriving DecidableEq

/-- Database state: user rows and task rows in insertion order, plus the next
autoincrement primary key for tasks. -/
structure DB where
  users : List User
  tasks : List Task
  nextTaskId : Nat
  deriving DecidableEq

/-- Email uniqueness invariant of the user table (models.py declares the email
column with unique=True). -/
def emailsUnique (db : DB) : Prop :=
  db.users.Pairwise (fun a b => a.email ≠ b.email)

/-- Primary key uniqueness invariant of the task table. -/
def taskIdsUnique (db : DB) : Prop :=
  db.tasks.Pairwise (fun a b => a.id ≠ b.id)

/- ----------------------------------------------------------------
Credential hasher, src/security.py
---------------------------------------------------------------- -/

/-- Python string slice s[:72] used by both functions in src/security.py:
the first 72 characters of the string. -/
def pyTake72 (s : String) : String := s.take 72

/-- External passlib CryptContext(schemes=[bcrypt]) viewed as a pair of total
functions; src/security.py calls it through this interface. -/
structure CryptContext where
  hash : String → String
  verify : String → String → Bool

/-- Embedding of verify_password from src/security.py: truncate the plain
password to 72 characters, then delegate to pwd_context.verify. -/
def verify_password (ctx : CryptContext) (plain_password hashed_password : String) : Bool :=
  ctx.verify (pyTake72 plain_password) hashed_password

/-- Embedding of get_password_hash from src/security.py: truncate the password
to 72 characters, then delegate to pwd_context.hash. -/
def get_password_hash (ctx : CryptContext) (password : String) : String :=
  ctx.hash (pyTake72 password)

/-- Exception-aware view of the external pwd_context.verify: the call either
returns a Bool or raises a Python exception (carried as a string). -/
structure CryptContextE where
  verifyE : String → String → Except String Bool

/-- Embedding of verify_password from src/security.py against the
exception-aware context: the source has no try/except around the call, so any
exception of the underlying verify propagates unchanged. -/
def verify_passwordE (ctx : CryptContextE) (plain_password hashed_password : String) :
    Except String Bool :=
  ctx.verifyE (pyTake72 plain_password) hashed_password

/-- Behavioural model of passlib CryptContext(schemes=[bcrypt]).verify, the
external dependency of src/security.py: when the hash string is not an
identifiable bcrypt hash (modelled here as not carrying the bcrypt prefix) it
raises UnknownHashError; otherwise it returns the boolean result of the given
bcrypt check function. -/
def passlibBcrypt (check : String → String → Bool) : CryptContextE :=
  { verifyE := fun secret hashed =>
      if hashed.take 4 = "$2b$" then Except.ok (check secret hashed)
      else Except.error "UnknownHashError" }

/- ----------------------------------------------------------------
Token service.  Modelled from the spec: auth.py (create_access_token,
verify_token, oauth2_scheme) is imported by both application versions but is
not under src/; the definitions below follow spec section 4.2 (Token Service):
issue embeds the subject and expires_at = now + EXPIRY_DURATION and signs the
payload with the server secret; verify fails with the single Unauthenticated
error kind when the signature does not match, the payload is malformed, or
now >= expires_at.
---------------------------------------------------------------- -/

/-- Token payload: optional subject claim and expiry time. -/
structure TokenClaims where
  sub : Option String
  exp : Nat
  deriving DecidableEq

/-- Stand-in for the HMAC signature over the payload using the server secret:
an injective encoding of secret and payload, so that any change of subject or
expiry changes the signature. -/
def signClaims (secret : String) (c : TokenClaims) : String :=
  secret ++ "." ++ (match c.sub with | none => "" | some s => s) ++ "." ++ toString c.exp

/-- A bearer token as received over HTTP: either a payload with a signature, or
a string that does not parse as a token at all. -/
inductive JWT where
  | signed (claims : TokenClaims) (sig : String)
  | malformed (raw : String)
  deriving DecidableEq

/-- Default token lifetime in minutes (config.py, default 30). -/
def ACCESS_TOKEN_EXPIRE_MINUTES : Nat := 30

/-- Modelled from the spec: create_access_token of the missing auth.py (spec
section 4.2, issue): embed the subject, set expires_at from the expiry
duration in minutes, sign with the secret. -/
def create_access_token (secret : String) (subject : String) (now : Nat)
    (expireMinutes : Nat) : JWT :=
  let claims : TokenClaims := { sub := some subject, exp := now + expireMinutes * 60 }
  JWT.signed claims (signClaims secret claims)

/-- Single Unauthenticated outcome of token verification (spec sections 4.2 and
4.3): 401 with a fixed detail and the bearer challenge header. -/
def credentialsError : HTTPError :=
  { status := 401, detail := "Could not validate credentials"
    headers := [("WWW-Authenticate", "Bearer")] }

/-- Modelled from the spec: verify_token of the missing auth.py (spec section
4.2, verify): fail with the single Unauthenticated error kind when the payload
is malformed, the signature does not match, or now >= expires_at; otherwise
return the payload. -/
def verify_token (secret : String) (now : Nat) : JWT → Except HTTPError TokenClaims
  | JWT.malformed _ => Except.error credentialsError
  | JWT.signed claims sig =>
    if sig = signClaims secret claims then
      if claims.exp ≤ now then Except.error credentialsError
      else Except.ok claims
    else Except.error credentialsError

/- ----------------------------------------------------------------
Account service and identity resolver, from both application versions
---------------------------------------------------------------- -/

/-- Request body of POST /api/register. -/
structure UserCreate where
  email : String
  password : String
  deriving DecidableEq

/-- Conflict outcome of register_user in both versions: 409 Email already
registered. -/
def conflictError : HTTPError :=
  { status := 409, detail := "Email already registered", headers := [] }

/-- Embedding of register_user (identical logic in both application versions):
look up an existing user by email; on a hit raise 409; otherwise insert a new
user row with a fresh uuid and the hashed password, then issue a token.
Clock reads and the generated uuid are explicit parameters; the function
returns the endpoint result together with the resulting database state. -/
def register_user (ctx : CryptContext) (user_in : UserCreate) (new_uuid : String)
    (now : Nat) (secret : String) (tnow : Nat) (db : DB) :
    Except HTTPError JWT × DB :=
  match db.users.find? (fun u => u.email == user_in.email) with
  | some _ => (Except.error conflictError, db)
  | none =>
    let db_user : User :=
      { id := new_uuid, email := user_in.email
        hashed_password := get_password_hash ctx user_in.password
        name := none, created_at := now }
    let db2 : DB := { db with users := db.users ++ [db_user] }
    (Except.ok (create_access_token secret db_user.id tnow ACCESS_TOKEN_EXPIRE_MINUTES), db2)

/-- Failure outcome of login_for_access_token in both versions: 401 with the
fixed detail and the bearer challenge header, identical for a missing user and
for a wrong password. -/
def loginError : HTTPError :=
  { status := 401, detail := "Incorrect username or password"
    headers := [("WWW-Authenticate", "Bearer")] }

/-- Embedding of login_for_access_token (identical outcomes in both
application versions): look up the user by the submitted username (email);
if there is no user, or password verification fails, raise the one 401
outcome; otherwise issue a token for the user id. -/
def login_for_access_token (ctx : CryptContext) (username password : String)
    (secret : String) (tnow : Nat) (db : DB) : Except HTTPError JWT :=
  match db.users.find? (fun u => u.email == username) with
  | none => Except.error loginError
  | some user =>
    if verify_password ctx password user.hashed_password then
      Except.ok (create_access_token secret user.id tnow ACCESS_TOKEN_EXPIRE_MINUTES)
    else Except.error loginError

/-- The 401 outcome raised by get_current_user itself in the later application
version (no extra headers in the source). -/
def invalidCredentials : HTTPError :=
  { status := 401, detail := "Could not validate credentials", headers := [] }

/-- The 404 outcome raised by get_current_user in the earlier application
version when the token subject maps to no user row. -/
def userNotFoundError : HTTPError :=
  { status := 404, detail := "User not found", headers := [] }

/-- Embedding of get_current_user from the later application version
(app_20260215151647.py): verify the token, read the sub claim, and fail with
401 when the claim is absent or falsy (the source tests not user_id, so the
empty string is also rejected) or when no user row has that id. -/
def get_current_user (secret : String) (now : Nat) (token : JWT) (db : DB) :
    Except HTTPError User :=
  match verify_token secret now token with
  | Except.error e => Except.error e
  | Except.ok payload =>
    match payload.sub with
    | none => Except.error invalidCredentials
    | some user_id =>
      if user_id = "" then Except.error invalidCredentials
      else
        match db.users.find? (fun u => u.id == user_id) with
        | none => Except.error invalidCredentials
        | some user => Except.ok user

/-- Embedding of get_current_user from the earlier application version
(app_20260214104525.py): verify the token, fail 401 when the sub claim is
None, but fail 404 User not found when the subject maps to no user row. -/
def get_current_user_v1 (secret : String) (now : Nat) (token : JWT) (db : DB) :
    Except HTTPError User :=
  match verify_token secret now token with
  | Except.error e => Except.error e
  | Except.ok payload =>
    match payload.sub with
    | none => Except.error credentialsError
    | some user_id =>
      match db.users.find? (fun u => u.id == user_id) with
      | none => Except.error userNotFoundError
      | some user => Except.ok user

/- ----------------------------------------------------------------
Task store accessor, from both application versions
---------------------------------------------------------------- -/

/-- The 404 outcome shared by every per-task endpoint in both versions, for a
missing task and for a task owned by another user alike. -/
def taskNotFound : HTTPError :=
  { status := 404, detail := "Task not found", headers := [] }

/-- Request body of POST /api/tasks; status defaults to pending when absent
(Pydantic default in both versions). -/
structure TaskCreate where
  title : String
  description : Option String := none
  status : Status := Status.pending
  deriving DecidableEq

/-- Tri-state of one field of a Pydantic partial-update payload under
dict(exclude_unset=True): either the field was not supplied, or it was
supplied with a value. -/
inductive PyOpt (α : Type) where
  | unset
  | set (value : α)
  deriving DecidableEq

/-- Request body of PUT /api/tasks/id in both versions.  description and
status may be supplied as an explicit null (carried as Option inside set).
A title supplied as an explicit null is outside the modelled payloads: the
title column is declared nullable=False in src/models.py, so committing it
cannot yield a successful update. -/
structure TaskUpdate where
  title : PyOpt String := PyOpt.unset
  description : PyOpt (Option String) := PyOpt.unset
  status : PyOpt (Option Status) := PyOpt.unset
  deriving DecidableEq

/-- Embedding of create_task (identical in both versions): build the task row
with completed set by the status == completed comparison, owner stamped from
the current user, and the two timestamps taken from the two consecutive
datetime.now calls of the source (one parameter per clock read, in source
order); append the row under the next autoincrement id. -/
def create_task (task_in : TaskCreate) (current_user : User)
    (now_created now_updated : Nat) (db : DB) : Task × DB :=
  let db_task : Task :=
    { id := db.nextTaskId
      user_id := current_user.id
      title := task_in.title
      description := task_in.description
      completed := task_in.status == Status.completed
      created_at := now_created
      updated_at := now_updated }
  (db_task, { db with tasks := db.tasks ++ [db_task], nextTaskId := db.nextTaskId + 1 })

/-- The ownership-scoped lookup shared by get, update, delete and toggle in
both versions: SELECT ... WHERE Task.id == id AND Task.user_id == uid,
taking the first row. -/
def findTask (db : DB) (id : Nat) (uid : String) : Option Task :=
  db.tasks.find? (fun t => t.id == id && t.user_id == uid)

/-- Embedding of get_task (identical in both versions): the ownership-scoped
lookup, with 404 Task not found on a miss. -/
def get_task (id : Nat) (current_user : User) (db : DB) : Except HTTPError Task :=
  match findTask db id current_user.id with
  | none => Except.error taskNotFound
  | some t => Except.ok t

/-- The filter chain of list_tasks common to both versions: restrict to the
rows of the current user, then optionally by the completed flag (completed
restricts to true; pending and in_progress both restrict to false). -/
def v1Filtered (status_filter : Option Status) (current_user : User) (db : DB) : List Task :=
  let base := db.tasks.filter (fun t => t.user_id == current_user.id)
  match status_filter with
  | none => base
  | some Status.completed => base.filter (fun t => t.completed == true)
  | some Status.pending => base.filter (fun t => t.completed == false)
  | some Status.in_progress => base.filter (fun t => t.completed == false)

/-- Embedding of list_tasks from the later application version: the filter
chain with the status_filter comparison written as in the source; the
endpoint has no sort parameter. -/
def list_tasks (status_filter : Option Status) (current_user : User) (db : DB) : List Task :=
  let base := db.tasks.filter (fun t => t.user_id == current_user.id)
  match status_filter with
  | none => base
  | some s => base.filter (fun t => t.completed == (s == Status.completed))

/-- Route-level view of the later list_tasks endpoint: the function signature
declares no sort query parameter, so the framework drops any submitted sort
value before the handler runs. -/
def list_tasks_route (status_filter : Option Status) (sort : Option String)
    (current_user : User) (db : DB) : List Task :=
  list_tasks status_filter current_user db

/-- Embedding of list_tasks from the earlier application version: the filter
chain followed by ORDER BY created_at when sort is created_at, ORDER BY title
when sort is title, and no explicit ordering otherwise (ORDER BY is rendered
as a sort of the filtered rows). -/
def list_tasks_v1 (status_filter : Option Status) (sort : Option String)
    (current_user : User) (db : DB) : List Task :=
  if sort = some "created_at" then
    List.insertionSort (fun a b => a.created_at ≤ b.created_at)
      (v1Filtered status_filter current_user db)
  else if sort = some "title" then
    List.insertionSort (fun a b => a.title ≤ b.title)
      (v1Filtered status_filter current_user db)
  else v1Filtered status_filter current_user db

/-- Merge of a partial-update payload into a task row, following update_task
in both versions: a supplied status only drives the completed flag and is
dropped before the field loop; supplied title and description overwrite their
fields; updated_at is then set to the clock read of the source. -/
def applyTaskUpdate (task : Task) (task_update : TaskUpdate) (now : Nat) : Task :=
  let completed1 := match task_update.status with
    | PyOpt.unset => task.completed
    | PyOpt.set v => v == some Status.completed
  let title1 := match task_update.title with
    | PyOpt.unset => task.title
    | PyOpt.set v => v
  let description1 := match task_update.description with
    | PyOpt.unset => task.description
    | PyOpt.set v => v
  { task with title := title1, description := description1, completed := completed1, updated_at := now }

/-- In-place mutation of the first row matched by the session query, as done
by setattr plus commit on the object returned by .first(). -/
def replaceFirstTask (p : Task → Bool) (f : Task → Task) : List Task → List Task
  | [] => []
  | t :: ts => if p t then f t :: ts else t :: replaceFirstTask p f ts

/-- Embedding of update_task (identical logic in both versions): the
ownership-scoped lookup with 404 on a miss; on a hit merge the payload,
refresh updated_at to the clock read, and commit the mutated row. -/
def update_task (id : Nat) (task_update : TaskUpdate) (now : Nat)
    (current_user : User) (db : DB) : Except HTTPError Task × DB :=
  match findTask db id current_user.id with
  | none => (Except.error taskNotFound, db)
  | some task =>
    let tasks1 := replaceFirstTask
      (fun t => t.id == id && t.user_id == current_user.id)
      (fun t => applyTaskUpdate t task_update now) db.tasks
    (Except.ok (applyTaskUpdate task task_update now), { db with tasks := tasks1 })

/-- Embedding of delete_task (identical in both versions): the
ownership-scoped lookup with 404 on a miss; on a hit delete the row by its
primary key and acknowledge. -/
def delete_task (id : Nat) (current_user : User) (db : DB) :
    Except HTTPError String × DB :=
  match findTask db id current_user.id with
  | none => (Except.error taskNotFound, db)
  | some _ =>
    (Except.ok "Task deleted successfully",
     { db with tasks := db.tasks.filter (fun t => !(t.id == id)) })

/-- Embedding of toggle_task_completion from the earlier application version
(the later one has no such endpoint): the ownership-scoped lookup with 404 on
a miss; on a hit flip completed and refresh updated_at. -/
def toggle_task_completion (id : Nat) (now : Nat) (current_user : User) (db : DB) :
    Except HTTPError Task × DB :=
  match findTask db id current_user.id with
  | none => (Except.error taskNotFound, db)
  | some task =>
    let tasks1 := replaceFirstTask
      (fun t => t.id == id && t.user_id == current_user.id)
      (fun t => { t with completed := !t.completed, updated_at := now }) db.tasks
    (Except.ok { task with completed := !task.completed, updated_at := now },
     { db with tasks := tasks1 })

/- ----------------------------------------------------------------
Concrete fixtures used by witnesses and counterexamples
---------------------------------------------------------------- -/

/-- Concrete stand-in for the external bcrypt context: an injective tagging
hash together with the matching verifier. -/
def ctxW : CryptContext :=
  { hash := fun s => "h:" ++ s, verify := fun s h => decide (h = "h:" ++ s) }

/-- Fixture user owning taskA. -/
def userA : User :=
  { id := "uA", email := "a@x.com", hashed_password := "h:pw", created_at := 0 }

/-- Fixture user distinct from userA. -/
def userB : User :=
  { id := "uB", email := "b@x.com", hashed_password := "h:pw2", created_at := 0 }

/-- Fixture task owned by userA. -/
def taskA : Task :=
  { id := 1, user_id := "uA", title := "T1", description := none
    completed := false, created_at := 0, updated_at := 0 }

/-- Fixture database with two users and one task. -/
def dbW : DB := { users := [userA, userB], tasks := [taskA], nextTaskId := 2 }

/-- Empty fixture database. -/
def dbEmpty : DB := { users := [], tasks := [], nextTaskId := 0 }

/-- Fixture partial update supplying only the title. -/
def updW : TaskUpdate := { title := PyOpt.set "New title" }

/- ----------------------------------------------------------------
Helper lemmas
---------------------------------------------------------------- -/

/-- Every failure of token verification carries the one credentials error. -/
theorem verify_token_error_kind (secret : String) (now : Nat) (tok : JWT) (e : HTTPError)
    (h : verify_token secret now tok = Except.error e) : e = credentialsError := by
  cases tok with
  | malformed r =>
    simp only [verify_token] at h
    exact (Except.error.inj h).symm
  | signed claims sig =>
    simp only [verify_token] at h
    split at h
    · split at h
      · exact (Except.error.inj h).symm
      · exact absurd h (by simp)
    · exact (Except.error.inj h).symm

/- ----------------------------------------------------------------
Claim C9
---------------------------------------------------------------- -/

/-- C9: token verification fails with the single Unauthenticated error kind
whenever now is at or past expires_at, regardless of signature validity; in
particular a token issued with expires_at in the past never verifies; and
every verification failure carries that same single error kind. -/
theorem token_expiry_rejection :
    (∀ (secret : String) (now : Nat) (claims : TokenClaims) (sig : String),
      claims.exp ≤ now →
      verify_token secret now (JWT.signed claims sig) = Except.error credentialsError)
    ∧ (∀ (secret subject : String) (tissue expireMinutes now : Nat),
      tissue + expireMinutes * 60 ≤ now →
      verify_token secret now (create_access_token secret subject tissue expireMinutes) =
        Except.error credentialsError)
    ∧ (∀ (secret : String) (now : Nat) (tok : JWT) (e : HTTPError),
      verify_token secret now tok = Except.error e → e = credentialsError) := by
  refine ⟨?_, ?_, ?_⟩
  · intro secret now claims sig hexp
    simp [verify_token, hexp]
  · intro secret subject tissue expireMinutes now h
    simp [create_access_token, verify_token, h]
  · intro secret now tok e h
    exact verify_token_error_kind secret now tok e h

/-- Witness for C9 at concrete inputs: a token whose expiry 10 lies before the
verification time 1800 is rejected with the credentials error. -/
theorem token_expiry_rejection_witness :
    (10 : Nat) + 0 * 60 ≤ 1800 ∧
    verify_token "s" 1800 (create_access_token "s" "u1" 10 0) =
      Except.error credentialsError :=
  ⟨by decide, token_expiry_rejection.2.1 "s" "u1" 10 0 1800 (by decide)⟩

/- ----------------------------------------------------------------
Claim C6
---------------------------------------------------------------- -/

/-- C6 counterexample: create_task reads the clock once for created_at and
once for updated_at; at a pair of clock reads 0 and 1 the created task has
created_at different from updated_at, refuting the claimed equality. -/
theorem create_task_clock_reads_counterexample :
    (create_task { title := "T1" } userA 0 1 dbW).1.created_at = 0
    ∧ (create_task { title := "T1" } userA 0 1 dbW).1.updated_at = 1
    ∧ (create_task { title := "T1" } userA 0 1 dbW).1.created_at ≠
        (create_task { title := "T1" } userA 0 1 dbW).1.updated_at := by
  refine ⟨rfl, rfl, by decide⟩

/-- C6 as amended: the created task has completed = true exactly when the
supplied status is completed (pending, in_progress, and the default used when
the field is absent give false), owner stamped from the creating identity, and
created_at and updated_at taken from the two separate clock reads, hence equal
whenever those reads coincide. -/
theorem create_task_fields :
    ∀ (task_in : TaskCreate) (current_user : User) (now1 now2 : Nat) (db : DB),
      ((create_task task_in current_user now1 now2 db).1.completed =
        (task_in.status == Status.completed))
      ∧ (task_in.status = Status.completed →
          (create_task task_in current_user now1 now2 db).1.completed = true)
      ∧ ((task_in.status = Status.pending ∨ task_in.status = Status.in_progress) →
          (create_task task_in current_user now1 now2 db).1.completed = false)
      ∧ (create_task task_in current_user now1 now2 db).1.user_id = current_user.id
      ∧ (create_task task_in current_user now1 now2 db).1.created_at = now1
      ∧ (create_task task_in current_user now1 now2 db).1.updated_at = now2
      ∧ (now1 = now2 →
          (create_task task_in current_user now1 now2 db).1.created_at =
            (create_task task_in current_user now1 now2 db).1.updated_at)
      ∧ (∀ (ti : String) (de : Option String),
          ({ title := ti, description := de } : TaskCreate).status = Status.pending) := by
  intro task_in current_user now1 now2 db
  refine ⟨rfl, ?_, ?_, rfl, rfl, rfl, ?_, fun ti de => rfl⟩
  · intro h
    show (task_in.status == Status.completed) = true
    rw [h]
    decide
  · intro h
    show (task_in.status == Status.completed) = false
    rcases h with h | h <;> rw [h] <;> decide
  · intro h
    exact h

/-- Witness for C6 at concrete inputs: status completed yields completed =
true, and equal clock reads yield equal timestamps. -/
theorem create_task_fields_witness :
    Status.completed = Status.completed
    ∧ (create_task { title := "T1", status := Status.completed } userA 5 5 dbW).1.completed = true
    ∧ (5 : Nat) = 5
    ∧ (create_task { title := "T1", status := Status.completed } userA 5 5 dbW).1.created_at =
        (create_task { title := "T1", status := Status.completed } userA 5 5 dbW).1.updated_at :=
  ⟨rfl,
   (create_task_fields { title := "T1", status := Status.completed } userA 5 5 dbW).2.1 rfl,
   rfl,
   (create_task_fields { title := "T1", status := Status.completed } userA 5 5 dbW).2.2.2.2.2.2.1 rfl⟩

/- ----------------------------------------------------------------
Claim C2
---------------------------------------------------------------- -/

/-- C2: login with a nonexistent email and login with a wrong password both
produce the identical Unauthenticated outcome, the single 401 value with
detail Incorrect username or password. -/
theorem login_failure_uniform :
    ∀ (ctx : CryptContext) (username p1 p2 secret : String) (t1 t2 : Nat) (db : DB),
      (db.users.find? (fun u => u.email == username) = none →
        login_for_access_token ctx username p1 secret t1 db = Except.error loginError)
      ∧ (∀ u : User, db.users.find? (fun x => x.email == username) = some u →
          verify_password ctx p2 u.hashed_password = false →
          login_for_access_token ctx username p2 secret t2 db = Except.error loginError)
      ∧ loginError.status = 401 ∧ loginError.detail = "Incorrect username or password" := by
  intro ctx username p1 p2 secret t1 t2 db
  refine ⟨?_, ?_, rfl, rfl⟩
  · intro h
    simp [login_for_access_token, h]
  · intro u hu hv
    simp [login_for_access_token, hu, hv]

set_option maxRecDepth 10000 in
/-- Witness for C2 at concrete inputs: a lookup miss and a wrong password on
the fixture database both yield the one login error value. -/
theorem login_failure_uniform_witness :
    (dbW.users.find? (fun u => u.email == "nobody@x.com") = none
      ∧ login_for_access_token ctxW "nobody@x.com" "pw" "s" 0 dbW = Except.error loginError)
    ∧ (dbW.users.find? (fun x => x.email == "a@x.com") = some userA
      ∧ verify_password ctxW "wrong" userA.hashed_password = false
      ∧ login_for_access_token ctxW "a@x.com" "wrong" "s" 0 dbW = Except.error loginError) :=
  ⟨⟨rfl, (login_failure_uniform ctxW "nobody@x.com" "pw" "pw" "s" 0 0 dbW).1 rfl⟩,
   ⟨rfl, by decide,
    (login_failure_uniform ctxW "a@x.com" "wrong" "wrong" "s" 0 0 dbW).2.1 userA rfl (by decide)⟩⟩

/- ----------------------------------------------------------------
Claim C7
---------------------------------------------------------------- -/

/-- C7: hashing and verification truncate the password identically before
calling the underlying scheme, so for every password, including passwords
longer than 72 characters, verifying against its own hash succeeds whenever
the underlying scheme round-trips; consequently register followed by login
with the same credentials succeeds. -/
theorem hash_verify_roundtrip :
    ∀ (ctx : CryptContext),
      (∀ s, ctx.verify s (ctx.hash s) = true) →
      (∀ password : String,
        verify_password ctx password (get_password_hash ctx password) = true)
      ∧ (∀ (user_in : UserCreate) (new_uuid : String) (now : Nat) (secret : String)
          (tnow tnow2 : Nat) (db : DB),
          db.users.find? (fun u => u.email == user_in.email) = none →
          ∃ tok,
            login_for_access_token ctx user_in.email user_in.password secret tnow2
              (register_user ctx user_in new_uuid now secret tnow db).2 = Except.ok tok) := by
  intro ctx hrt
  constructor
  · intro password
    exact hrt (pyTake72 password)
  · intro user_in new_uuid now secret tnow tnow2 db hfree
    have hv : verify_password ctx user_in.password (get_password_hash ctx user_in.password) = true :=
      hrt (pyTake72 user_in.password)
    refine ⟨create_access_token secret new_uuid tnow2 ACCESS_TOKEN_EXPIRE_MINUTES, ?_⟩
    simp [register_user, hfree, login_for_access_token, List.find?_append, List.find?, hv]

/-- Witness for C7 at concrete inputs: the tagging context round-trips, and a
password of more than 72 characters still verifies against its own hash. -/
theorem hash_verify_roundtrip_witness :
    (∀ s, ctxW.verify s (ctxW.hash s) = true)
    ∧ verify_password ctxW
        "this-password-is-deliberately-much-longer-than-seventy-two-characters-so-it-gets-truncated"
        (get_password_hash ctxW
          "this-password-is-deliberately-much-longer-than-seventy-two-characters-so-it-gets-truncated") = true :=
  ⟨fun s => by simp [ctxW],
   (hash_verify_roundtrip ctxW (fun s => by simp [ctxW])).1
     "this-password-is-deliberately-much-longer-than-seventy-two-characters-so-it-gets-truncated"⟩

/- ----------------------------------------------------------------
Claim C8
---------------------------------------------------------------- -/

/-- C8 counterexample: with the passlib bcrypt behaviour, verify_password on a
hash string that is not an identifiable bcrypt hash propagates the
UnknownHashError exception instead of returning false. -/
theorem verify_password_raises_counterexample :
    verify_passwordE (passlibBcrypt (fun _ _ => false)) "password" "not-a-hash" =
      Except.error "UnknownHashError"
    ∧ (verify_passwordE (passlibBcrypt (fun _ _ => false)) "password" "not-a-hash").isOk = false :=
  ⟨rfl, rfl⟩

/-- C8 as amended: verify_password adds no exception handling around the
underlying pwd_context.verify call: it returns exactly what the underlying
context returns on the truncated password, and with the passlib bcrypt
behaviour an unidentifiable hash string raises UnknownHashError rather than
returning false. -/
theorem verify_password_exception_transparent :
    ∀ (ctx : CryptContextE) (plain hashed : String),
      (∀ b, ctx.verifyE (pyTake72 plain) hashed = Except.ok b →
        verify_passwordE ctx plain hashed = Except.ok b)
      ∧ (∀ e, ctx.verifyE (pyTake72 plain) hashed = Except.error e →
        verify_passwordE ctx plain hashed = Except.error e)
      ∧ (∀ (check : String → String → Bool) (h : String),
          ¬ (h.take 4 = "$2b$") →
          verify_passwordE (passlibBcrypt check) plain h =
            Except.error "UnknownHashError") := by
  intro ctx plain hashed
  refine ⟨fun b hb => hb, fun e he => he, ?_⟩
  intro check h hh
  simp [verify_passwordE, passlibBcrypt, hh]

/-- Witness for C8 at concrete inputs: a non-bcrypt hash string makes the
wrapped verification raise. -/
theorem verify_password_exception_transparent_witness :
    ¬ (("nohash" : String).take 4 = "$2b$")
    ∧ verify_passwordE (passlibBcrypt (fun _ _ => true)) "pw" "nohash" =
        Except.error "UnknownHashError" :=
  ⟨by decide,
   (verify_password_exception_transparent (passlibBcrypt (fun _ _ => true)) "pw" "x").2.2
     (fun _ _ => true) "nohash" (by decide)⟩

/- ----------------------------------------------------------------
Claim C3
---------------------------------------------------------------- -/

/-- C3 counterexample: in the earlier application version, a well-signed,
unexpired token whose subject maps to no stored user is answered with 404
User not found, a NotFound outcome distinguishable from the 401
Unauthenticated outcome the claim requires. -/
theorem resolver_v1_not_found_counterexample :
    get_current_user_v1 "s" 0 (create_access_token "s" "uA" 0 30) dbEmpty =
      Except.error userNotFoundError
    ∧ userNotFoundError.status = 404
    ∧ ¬ userNotFoundError.status = 401 :=
  ⟨rfl, rfl, by decide⟩

/-- C3 as amended: in the later application version every failure of
get_current_user is a 401 Unauthenticated outcome, and an unknown subject id
is answered with the very same 401 value as a missing subject claim, so a bad
token and a deleted account are indistinguishable there; in the earlier
application version an unknown subject id is instead answered with 404 User
not found. -/
theorem identity_resolution_errors :
    (∀ (secret : String) (now : Nat) (tok : JWT) (db : DB) (e : HTTPError),
      get_current_user secret now tok db = Except.error e →
      e.status = 401)
    ∧ (∀ (secret : String) (now : Nat) (tok : JWT) (db : DB) (c : TokenClaims) (uid : String),
      verify_token secret now tok = Except.ok c → c.sub = some uid → ¬ uid = "" →
      db.users.find? (fun u => u.id == uid) = none →
      get_current_user secret now tok db = Except.error invalidCredentials)
    ∧ (∀ (secret : String) (now : Nat) (tok : JWT) (db : DB) (c : TokenClaims) (uid : String),
      verify_token secret now tok = Except.ok c → c.sub = some uid →
      db.users.find? (fun u => u.id == uid) = none →
      get_current_user_v1 secret now tok db = Except.error userNotFoundError)
    ∧ userNotFoundError.status = 404 ∧ invalidCredentials.status = 401 := by
  refine ⟨?_, ?_, ?_, rfl, rfl⟩
  · intro secret now tok db e h
    unfold get_current_user at h
    cases hv : verify_token secret now tok with
    | error e2 =>
      simp only [hv] at h
      obtain rfl := verify_token_error_kind secret now tok e2 hv
      obtain rfl := Except.error.inj h
      rfl
    | ok payload =>
      simp only [hv] at h
      cases hs : payload.sub with
      | none =>
        simp only [hs] at h
        obtain rfl := Except.error.inj h
        rfl
      | some uid =>
        simp only [hs] at h
        by_cases huid : uid = ""
        · rw [if_pos huid] at h
          obtain rfl := Except.error.inj h
          rfl
        · rw [if_neg huid] at h
          cases hf : db.users.find? (fun u => u.id == uid) with
          | none =>
            simp only [hf] at h
            obtain rfl := Except.error.inj h
            rfl
          | some u =>
            simp only [hf] at h
            exact absurd h (by simp)
  · intro secret now tok db c uid hv hs huid hf
    simp [get_current_user, hv, hs, huid, hf]
  · intro secret now tok db c uid hv hs hf
    simp [get_current_user_v1, hv, hs, hf]

/-- Witness for C3 at concrete inputs: a malformed token fails resolution in
the later version and the failure status is 401. -/
theorem identity_resolution_errors_witness :
    get_current_user "s" 0 (JWT.malformed "zzz") dbW = Except.error credentialsError
    ∧ credentialsError.status = 401 :=
  ⟨rfl, identity_resolution_errors.1 "s" 0 (JWT.malformed "zzz") dbW credentialsError rfl⟩

/- ----------------------------------------------------------------
Claim C4
---------------------------------------------------------------- -/

/-- C4: a registration against an already-registered email fails with the one
409 Conflict outcome and leaves the database unchanged, regardless of the
password; the pre-insert lookup makes a second registration of the same email
fail whatever its password; and registration preserves email uniqueness,
the invariant models.py also declares as a storage-level unique constraint. -/
theorem register_conflict_and_uniqueness :
    ∀ (ctx : CryptContext) (user_in : UserCreate) (new_uuid : String) (now : Nat)
      (secret : String) (tnow : Nat) (db : DB),
      ((∃ u ∈ db.users, u.email = user_in.email) →
        register_user ctx user_in new_uuid now secret tnow db =
          (Except.error conflictError, db))
      ∧ (emailsUnique db →
          emailsUnique (register_user ctx user_in new_uuid now secret tnow db).2)
      ∧ (∀ (p2 new_uuid2 : String) (now2 tnow2 : Nat),
          db.users.find? (fun u => u.email == user_in.email) = none →
          (register_user ctx { email := user_in.email, password := p2 } new_uuid2 now2
              secret tnow2 (register_user ctx user_in new_uuid now secret tnow db).2).1 =
            Except.error conflictError)
      ∧ conflictError.status = 409 := by
  intro ctx user_in new_uuid now secret tnow db
  refine ⟨?_, ?_, ?_, rfl⟩
  · rintro ⟨u, hu, he⟩
    have hs : (db.users.find? (fun x => x.email == user_in.email)).isSome :=
      List.find?_isSome.mpr ⟨u, hu, by simp [he]⟩
    cases hf : db.users.find? (fun x => x.email == user_in.email) with
    | none => rw [hf] at hs; simp at hs
    | some w => simp [register_user, hf]
  · intro huniq
    cases hf : db.users.find? (fun x => x.email == user_in.email) with
    | some w => simp [register_user, hf]; exact huniq
    | none =>
      simp only [register_user, hf]
      unfold emailsUnique at huniq ⊢
      simp only [List.pairwise_append]
      refine ⟨huniq, by simp, ?_⟩
      intro a ha b hb
      have hb2 : b.email = user_in.email := by
        simp at hb
        rw [hb]
      have ha2 := List.find?_eq_none.mp hf a ha
      simp at ha2
      rw [hb2]
      exact ha2
  · intro p2 new_uuid2 now2 tnow2 hf
    simp [register_user, hf, List.find?_append, List.find?]

/-- Witness for C4 at concrete inputs: the fixture database already holds the
email, so registration fails with 409 and the state is unchanged. -/
theorem register_conflict_and_uniqueness_witness :
    (∃ u ∈ dbW.users, u.email = "a@x.com")
    ∧ register_user ctxW { email := "a@x.com", password := "other" } "uC" 9 "s" 9 dbW =
        (Except.error conflictError, dbW) :=
  ⟨⟨userA, by simp [dbW], rfl⟩,
   (register_conflict_and_uniqueness ctxW { email := "a@x.com", password := "other" }
      "uC" 9 "s" 9 dbW).1 ⟨userA, by simp [dbW], rfl⟩⟩

/- ----------------------------------------------------------------
Claim C5
---------------------------------------------------------------- -/

/-- C5: a successful update changes only the supplied fields: an unsupplied
field keeps its value, a supplied status only drives the completed flag via
the status == completed mapping and is not stored verbatim, id, owner and
created_at are never changed, and updated_at is refreshed to the clock read
on every successful update regardless of which fields changed. -/
theorem update_task_frame :
    ∀ (id : Nat) (task_update : TaskUpdate) (now : Nat) (current_user : User)
      (db : DB) (t : Task),
      findTask db id current_user.id = some t →
      ((update_task id task_update now current_user db).1 =
        Except.ok (applyTaskUpdate t task_update now))
      ∧ (applyTaskUpdate t task_update now).id = t.id
      ∧ (applyTaskUpdate t task_update now).user_id = t.user_id
      ∧ (applyTaskUpdate t task_update now).created_at = t.created_at
      ∧ (applyTaskUpdate t task_update now).updated_at = now
      ∧ (task_update.title = PyOpt.unset →
          (applyTaskUpdate t task_update now).title = t.title)
      ∧ (∀ v, task_update.title = PyOpt.set v →
          (applyTaskUpdate t task_update now).title = v)
      ∧ (task_update.description = PyOpt.unset →
          (applyTaskUpdate t task_update now).description = t.description)
      ∧ (∀ v, task_update.description = PyOpt.set v →
          (applyTaskUpdate t task_update now).description = v)
      ∧ (task_update.status = PyOpt.unset →
          (applyTaskUpdate t task_update now).completed = t.completed)
      ∧ (∀ v, task_update.status = PyOpt.set v →
          (applyTaskUpdate t task_update now).completed = (v == some Status.completed)) := by
  intro id task_update now current_user db t hfind
  refine ⟨?_, rfl, rfl, rfl, rfl, ?_, ?_, ?_, ?_, ?_, ?_⟩
  · simp [update_task, hfind]
  · intro h
    simp [applyTaskUpdate, h]
  · intro v h
    simp [applyTaskUpdate, h]
  · intro h
    simp [applyTaskUpdate, h]
  · intro v h
    simp [applyTaskUpdate, h]
  · intro h
    simp [applyTaskUpdate, h]
  · intro v h
    simp [applyTaskUpdate, h]

/-- Witness for C5 at concrete inputs: updating only the title leaves the
description and completed flag unchanged and refreshes updated_at. -/
theorem update_task_frame_witness :
    findTask dbW 1 userA.id = some taskA
    ∧ updW.description = PyOpt.unset
    ∧ (applyTaskUpdate taskA updW 7).description = taskA.description
    ∧ updW.status = PyOpt.unset
    ∧ (applyTaskUpdate taskA updW 7).completed = taskA.completed
    ∧ (applyTaskUpdate taskA updW 7).updated_at = 7 :=
  ⟨rfl, rfl,
   (update_task_frame 1 updW 7 userA dbW taskA rfl).2.2.2.2.2.2.2.1 rfl,
   rfl,
   (update_task_frame 1 updW 7 userA dbW taskA rfl).2.2.2.2.2.2.2.2.2.1 rfl,
   (update_task_frame 1 updW 7 userA dbW taskA rfl).2.2.2.2.1⟩

/- ----------------------------------------------------------------
Claim C1
---------------------------------------------------------------- -/

/-- Two rows of a task list with pairwise distinct primary keys and equal ids
are the same row. -/
theorem eq_of_mem_of_unique_ids {l : List Task}
    (hp : l.Pairwise (fun x y => x.id ≠ y.id)) :
    ∀ {x y : Task}, x ∈ l → y ∈ l → x.id = y.id → x = y := by
  induction l with
  | nil =>
    intro x y hx
    cases hx
  | cons a l ih =>
    intro x y hx hy hid
    rcases List.pairwise_cons.mp hp with ⟨ha, hl⟩
    rcases List.mem_cons.mp hx with rfl | hx2
    · rcases List.mem_cons.mp hy with rfl | hy2
      · rfl
      · exact absurd hid (ha y hy2)
    · rcases List.mem_cons.mp hy with rfl | hy2
      · exact absurd hid.symm (ha x hx2)
      · exact ih hl hx2 hy2 hid

/-- The ownership-scoped lookup misses for a task owned by someone else, given
primary key uniqueness. -/
theorem findTask_none_of_foreign {db : DB} {t : Task} {uid : String}
    (hids : taskIdsUnique db) (ht : t ∈ db.tasks) (howner : t.user_id ≠ uid) :
    findTask db t.id uid = none := by
  unfold findTask
  apply List.find?_eq_none.mpr
  intro x hx hpx
  rw [Bool.and_eq_true] at hpx
  have hid : x.id = t.id := by simpa using hpx.1
  have hux : x.user_id = uid := by simpa using hpx.2
  have hxt : x = t := eq_of_mem_of_unique_ids hids hx ht hid
  exact howner (hxt ▸ hux)

/-- C1: with unique task primary keys, a task owned by identity a is never
returned to a distinct identity b: get fails with the 404 Task not found
outcome, the task is absent from every list result of both application
versions, and update, delete and toggle all fail with the same 404 outcome
and leave the database unchanged; the very same outcome answers an id that
exists for nobody, so denial is indistinguishable from nonexistence. -/
theorem cross_user_task_isolation :
    ∀ (db : DB) (a b : User) (t : Task) (task_update : TaskUpdate) (now : Nat),
      taskIdsUnique db → t ∈ db.tasks → t.user_id = a.id → a.id ≠ b.id →
      get_task t.id b db = Except.error taskNotFound
      ∧ (∀ f, t ∉ list_tasks f b db)
      ∧ (∀ f s, t ∉ list_tasks_v1 f s b db)
      ∧ update_task t.id task_update now b db = (Except.error taskNotFound, db)
      ∧ delete_task t.id b db = (Except.error taskNotFound, db)
      ∧ toggle_task_completion t.id now b db = (Except.error taskNotFound, db)
      ∧ (∀ j : Nat, (∀ x ∈ db.tasks, x.id ≠ j) →
          get_task j b db = Except.error taskNotFound) := by
  intro db a b t task_update now hids ht howner hab
  have hneq : t.user_id ≠ b.id := by
    rw [howner]
    exact hab
  have hnone : findTask db t.id b.id = none := findTask_none_of_foreign hids ht hneq
  have hbase : t ∉ db.tasks.filter (fun x => x.user_id == b.id) := by
    intro hm
    have h2 := (List.mem_filter.mp hm).2
    simp at h2
    exact hneq h2
  refine ⟨?_, ?_, ?_, ?_, ?_, ?_, ?_⟩
  · simp [get_task, hnone]
  · intro f hm
    apply hbase
    cases f with
    | none => exact hm
    | some s => exact (List.mem_filter.mp hm).1
  · intro f s hm
    have hmem : t ∈ v1Filtered f b db := by
      unfold list_tasks_v1 at hm
      split at hm
      · exact (List.mem_insertionSort _).mp hm
      · split at hm
        · exact (List.mem_insertionSort _).mp hm
        · exact hm
    apply hbase
    cases f with
    | none => exact hmem
    | some s2 => cases s2 <;> exact (List.mem_filter.mp hmem).1
  · simp [update_task, hnone]
  · simp [delete_task, hnone]
  · simp [toggle_task_completion, hnone]
  · intro j hj
    have hjn : findTask db j b.id = none := by
      unfold findTask
      apply List.find?_eq_none.mpr
      intro x hx hpx
      rw [Bool.and_eq_true] at hpx
      have hid : x.id = j := by simpa using hpx.1
      exact hj x hx hid
    simp [get_task, hjn]

/-- Witness for C1 at concrete inputs: the fixture task of userA is invisible
to userB through get. -/
theorem cross_user_task_isolation_witness :
    taskIdsUnique dbW ∧ taskA ∈ dbW.tasks ∧ taskA.user_id = userA.id
    ∧ ¬ (userA.id = userB.id)
    ∧ get_task taskA.id userB dbW = Except.error taskNotFound := by
  have hids : taskIdsUnique dbW := by simp [taskIdsUnique, dbW]
  have hmem : taskA ∈ dbW.tasks := by simp [dbW]
  exact ⟨hids, hmem, rfl, by decide,
    (cross_user_task_isolation dbW userA userB taskA updW 3 hids hmem rfl (by decide)).1⟩

/- ----------------------------------------------------------------
Claim C10
---------------------------------------------------------------- -/

/-- C10: in the earlier application version, list with sort created_at
returns the filtered tasks in ascending created_at order, sort title in
ascending title order, and any other or absent sort value applies no explicit
ordering; the later application version declares no sort parameter and so
ignores it entirely, always returning the filtered tasks unordered. -/
theorem list_tasks_sorting :
    ∀ (current_user : User) (db : DB) (status_filter : Option Status),
      (∀ s1 s2 : Option String,
        list_tasks_route status_filter s1 current_user db =
          list_tasks_route status_filter s2 current_user db)
      ∧ (∀ s : Option String,
          list_tasks_route status_filter s current_user db =
            v1Filtered status_filter current_user db)
      ∧ (list_tasks_v1 status_filter (some "created_at") current_user db).Pairwise
          (fun x y => x.created_at ≤ y.created_at)
      ∧ (list_tasks_v1 status_filter (some "created_at") current_user db).Perm
          (v1Filtered status_filter current_user db)
      ∧ (list_tasks_v1 status_filter (some "title") current_user db).Pairwise
          (fun x y => x.title ≤ y.title)
      ∧ (list_tasks_v1 status_filter (some "title") current_user db).Perm
          (v1Filtered status_filter current_user db)
      ∧ (∀ s : Option String, ¬ s = some "created_at" → ¬ s = some "title" →
          list_tasks_v1 status_filter s current_user db =
            v1Filtered status_filter current_user db) := by
  intro current_user db status_filter
  haveI h1 : IsTotal Task (fun x y => x.created_at ≤ y.created_at) :=
    ⟨fun x y => Nat.le_total x.created_at y.created_at⟩
  haveI h2 : IsTrans Task (fun x y => x.created_at ≤ y.created_at) :=
    ⟨fun x y z hxy hyz => Nat.le_trans hxy hyz⟩
  haveI h3 : IsTotal Task (fun x y => x.title ≤ y.title) :=
    ⟨fun x y => le_total x.title y.title⟩
  haveI h4 : IsTrans Task (fun x y => x.title ≤ y.title) :=
    ⟨fun x y z hxy hyz => le_trans hxy hyz⟩
  have e1 : list_tasks_v1 status_filter (some "created_at") current_user db =
      List.insertionSort (fun x y : Task => x.created_at ≤ y.created_at)
        (v1Filtered status_filter current_user db) := by
    unfold list_tasks_v1
    rw [if_pos rfl]
  have e2 : list_tasks_v1 status_filter (some "title") current_user db =
      List.insertionSort (fun x y : Task => x.title ≤ y.title)
        (v1Filtered status_filter current_user db) := by
    unfold list_tasks_v1
    rw [if_neg (by decide), if_pos rfl]
  refine ⟨fun s1 s2 => rfl, ?_, ?_, ?_, ?_, ?_, ?_⟩
  · intro s
    cases status_filter with
    | none => rfl
    | some s2 => cases s2 <;> rfl
  · rw [e1]
    exact List.sorted_insertionSort _ _
  · rw [e1]
    exact List.perm_insertionSort _ _
  · rw [e2]
    exact List.sorted_insertionSort _ _
  · rw [e2]
    exact List.perm_insertionSort _ _
  · intro s hs1 hs2
    unfold list_tasks_v1
    rw [if_neg hs1, if_neg hs2]

/-- Witness for C10 at concrete inputs: an absent sort value leaves the
filtered fixture tasks unordered. -/
theorem list_tasks_sorting_witness :
    ¬ ((none : Option String) = some "created_at")
    ∧ ¬ ((none : Option String) = some "title")
    ∧ list_tasks_v1 none none userB dbW = v1Filtered none userB dbW :=
  ⟨by decide, by decide,
   (list_tasks_sorting userB dbW none).2.2.2.2.2.2 none (by decide) (by decide)⟩

end Todo
